import Mathlib

/-!
Verification of the recording-and-orchestration workflow in `app.py` of the
medical-chatbot repository.  The handlers `process_audio`, `process_text`,
`process_from_any_source` and `stop_recording` are embedded as pure Lean
functions.  The external `HealthcareAIAssistant` collaborator is a record of
stage functions; a stage either returns a value (`Except.ok`) or raises a
Python exception, modelled as `Except.error msg` where `msg` is `str(e)`.
The ambient process state (file sizes on disk, the temporary directory, the
whole-second clock read by `int(time.time())`) is an explicit `Env` record.
Every embedded handler additionally returns the ordered list of assistant
calls it performed, so that "stage X is not invoked" claims are statable.
-/

/-- One call into the external `HealthcareAIAssistant`, with the exact
arguments it was given. -/
inductive Call where
  | transcribe (path lang : String)
  | analyze (text lang : String)
  | generateEmr (text lang : String)
  | generatePrescription (notes lang : String)
  | tts (text outPath lang : String)
deriving DecidableEq, Repr

/-- The language argument a call received. -/
def Call.lang : Call → String
  | .transcribe _ l => l
  | .analyze _ l => l
  | .generateEmr _ l => l
  | .generatePrescription _ l => l
  | .tts _ _ l => l

/-- Whether the call is a transcription call. -/
def Call.isTranscribe : Call → Bool
  | .transcribe _ _ => true
  | _ => false

/-- Behaviour of the external assistant: one function per stage.
`transcribe_audio` may return `none`, modelling a Python `None` result;
`Except.error msg` models the stage raising an exception with `str(e) = msg`. -/
structure Assistant where
  transcribe_audio : String → String → Except String (Option String)
  analyze_text : String → String → Except String String
  generate_emr_content : String → String → Except String String
  generate_prescription : String → String → Except String (String × String)
  text_to_speech_with_gtts : String → String → String → Except String Unit

/-- Ambient process environment for one handler invocation: `fileSize p` is
`some n` when path `p` exists on disk with size `n` bytes and `none` when it
does not exist; `tempdir` is `tempfile.gettempdir()`; `time` is the value of
`int(time.time())` read during the invocation. -/
structure Env where
  fileSize : String → Option Nat
  tempdir : String
  time : Nat

/-- Model of `os.path.exists`. -/
def Env.pathExists (env : Env) (p : String) : Bool :=
  (env.fileSize p).isSome

/-- The six-field result tuple every handler returns:
(transcription, medical notes, EMR content, prescription text,
prescription explanation, synthesized-audio path or `None`). -/
structure ProcResult where
  transcript : String
  notes : String
  emr : String
  prescription : String
  explanation : String
  audio : Option String
deriving DecidableEq, Repr

/-- Python truthiness of an optional string UI input: `None` and the empty
string are falsy, every other string is truthy. -/
def strTruthy : Option String → Bool
  | none => false
  | some s => s ≠ ""

/-- The language widget value: the dropdown normally delivers a
`(code, displayName)` tuple; any non-tuple value is also accepted by the code. -/
inductive LanguageInput where
  | pair (code label : String)
  | nonTuple (v : String)
deriving DecidableEq, Repr

/-- Model of `language_tuple[0] if isinstance(language_tuple, tuple) else "en"`. -/
def extractLang : LanguageInput → String
  | .pair c _ => c
  | .nonTuple _ => "en"

/-- Lowercase hexadecimal digit, as produced by CPython `json.dumps`. -/
def hexDigit (n : Nat) : Char :=
  if n < 10 then Char.ofNat (48 + n) else Char.ofNat (87 + n)

/-- Four-digit lowercase hexadecimal rendering of `n % 65536`. -/
def hex4 (n : Nat) : String :=
  String.mk [hexDigit (n / 4096 % 16), hexDigit (n / 256 % 16),
             hexDigit (n / 16 % 16), hexDigit (n % 16)]

/-- Escaping of one character inside a JSON string literal, following CPython
`json.dumps` with its default `ensure_ascii=True`: backslash, double quote and
the named control characters get two-character escapes, all other non-printable
or non-ASCII characters become `\uXXXX` (a surrogate pair beyond the BMP). -/
def jsonEscapeChar (c : Char) : String :=
  if c = '\\' then "\\\\"
  else if c = '"' then "\\\""
  else if c = '\n' then "\\n"
  else if c = '\t' then "\\t"
  else if c = '\r' then "\\r"
  else if c.toNat = 8 then "\\b"
  else if c.toNat = 12 then "\\f"
  else if c.toNat < 32 then "\\u" ++ hex4 c.toNat
  else if c.toNat < 127 then String.singleton c
  else if c.toNat < 65536 then "\\u" ++ hex4 c.toNat
  else
    "\\u" ++ hex4 (55296 + (c.toNat - 65536) / 1024) ++
    "\\u" ++ hex4 (56320 + (c.toNat - 65536) % 1024)

/-- Model of the CPython `json.dumps` rendering of a string value. -/
def json_dumps_str (s : String) : String :=
  "\"" ++ String.join (s.data.map jsonEscapeChar) ++ "\""

/-- Model of `json.dumps({"error": msg})` with CPython default separators. -/
def json_dumps_error (msg : String) : String :=
  "\x7b\"error\": " ++ json_dumps_str msg ++ "\x7d"

/-- Whether the first character list is an initial segment of the second:
the semantics of Python `str.startswith` on the underlying character
sequences. -/
def charsInitSeg : List Char → List Char → Bool
  | [], _ => true
  | _ :: _, [] => false
  | a :: as, b :: bs => a = b && charsInitSeg as bs

/-- Model of Python `s.startswith(t)`. -/
def str_startswith (s t : String) : Bool :=
  charsInitSeg t.data s.data

/-- Model of Python `s.endswith(t)` for a one-character suffix `t`. -/
def str_endswith_char (s : String) (c : Char) : Bool :=
  s.data.getLast? = some c

/-- Model of POSIX `os.path.join` for two components. -/
def os_path_join (a b : String) : String :=
  if str_startswith b "/" then b
  else if a = "" ∨ str_endswith_char a '/' then a ++ b
  else a ++ "/" ++ b

/-- The global `recording_state` dict, restricted to the fields `stop_recording`
reads: the `is_recording` flag, the target `audio_path`, and whether
`recording_thread` is set and alive. -/
structure RecordingState where
  is_recording : Bool
  audio_path : Option String
  thread_alive : Bool
deriving DecidableEq, Repr

/-- The `(button label, status message, path)` triple returned by the
recording handlers. -/
structure StopResult where
  label : String
  message : String
  path : Option String
deriving DecidableEq, Repr

/-- Embedding of `stop_recording` in `app.py`: clears `is_recording`, joins the
worker thread (a pure-side-effect wait, invisible in the returned value), then
inspects the stored `audio_path` against the disk.  `fileSize` plays the role
of `os.path.exists` / `os.path.getsize`. -/
def stop_recording (st : RecordingState) (fileSize : String → Option Nat) :
    RecordingState × StopResult :=
  let st1 : RecordingState := { st with is_recording := false }
  match st1.audio_path with
  | some p =>
    if p = "" then
      (st1, ⟨"🎙️ Record", "No recording was saved.", none⟩)
    else
      match fileSize p with
      | some sz =>
        if sz > 0 then
          (st1, ⟨"🎙️ Record", "Recording complete.", some p⟩)
        else
          (st1, ⟨"🎙️ Record",
            "Recording stopped but file is empty. Please try again.", none⟩)
      | none => (st1, ⟨"🎙️ Record", "No recording was saved.", none⟩)
  | none => (st1, ⟨"🎙️ Record", "No recording was saved.", none⟩)

/-- The early-return result of `process_audio` for a falsy `audio_path`. -/
def pleaseRecordResult : ProcResult :=
  ⟨"Please record or upload audio first.", "", "\x7b\x7d", "", "", none⟩

/-- The early-return result of `process_audio` for a nonexistent path. -/
def fileNotFoundResult (p : String) : ProcResult :=
  ⟨"Audio file not found at " ++ p, "", json_dumps_error "File not found",
   "", "", none⟩

/-- Body of the `try:` block of `process_audio` (lines 119-161 of `app.py`),
together with the list of assistant calls it performed.  `Except.error e`
models an exception with `str(e) = e` propagating to the handler; in
particular when `transcribe_audio` returns `None`, the f-string
`transcription[:100]` on line 137 raises `TypeError` before the truthiness
test on line 139 runs. -/
def processAudioRun (asst : Assistant) (env : Env) (audio_path : Option String)
    (lt : LanguageInput) : Except String ProcResult × List Call :=
  match audio_path with
  | none => (.ok pleaseRecordResult, [])
  | some p =>
    if p = "" then (.ok pleaseRecordResult, [])
    else if env.pathExists p = false then (.ok (fileNotFoundResult p), [])
    else
      let lang := extractLang lt
      let tcall := Call.transcribe p lang
      match asst.transcribe_audio p lang with
      | .error e => (.error e, [tcall])
      | .ok none => (.error "\x27NoneType\x27 object is not subscriptable", [tcall])
      | .ok (some t) =>
        if t = "" then
          (.ok ⟨t, "", json_dumps_error "Transcription failed", "", "", none⟩,
           [tcall])
        else if str_startswith t "Error" then
          (.ok ⟨t, "", json_dumps_error "Transcription failed", "", "", none⟩,
           [tcall])
        else
          match asst.analyze_text t lang with
          | .error e => (.error e, [tcall, .analyze t lang])
          | .ok notes =>
            match asst.generate_emr_content t lang with
            | .error e => (.error e, [tcall, .analyze t lang, .generateEmr t lang])
            | .ok emr =>
              match asst.generate_prescription notes lang with
              | .error e =>
                (.error e,
                 [tcall, .analyze t lang, .generateEmr t lang,
                  .generatePrescription notes lang])
              | .ok (ptext, pexp) =>
                let out := os_path_join env.tempdir
                  ("medical_notes_audio_" ++ toString env.time ++ ".mp3")
                let nae := notes ++ "\n\n" ++ pexp
                match asst.text_to_speech_with_gtts nae out lang with
                | .error e =>
                  (.error e,
                   [tcall, .analyze t lang, .generateEmr t lang,
                    .generatePrescription notes lang, .tts nae out lang])
                | .ok _ =>
                  (.ok ⟨t, notes, emr, ptext, pexp, some out⟩,
                   [tcall, .analyze t lang, .generateEmr t lang,
                    .generatePrescription notes lang, .tts nae out lang])

/-- `process_audio` with its `except Exception` clause made explicit: the
result is always `Except.ok`, because the handler on lines 162-164 converts
any exception into a six-field error tuple and itself performs no fallible
operation. -/
def process_audio_exc (asst : Assistant) (env : Env) (audio_path : Option String)
    (lt : LanguageInput) : Except String (ProcResult × List Call) :=
  match processAudioRun asst env audio_path lt with
  | (.ok r, tr) => .ok (r, tr)
  | (.error e, tr) =>
    .ok (⟨"Error processing audio: " ++ e, "", json_dumps_error e, "", "", none⟩,
         tr)

/-- Embedding of `process_audio` in `app.py`: the value actually handed to the
presenter, plus the assistant calls performed. -/
def process_audio (asst : Assistant) (env : Env) (audio_path : Option String)
    (lt : LanguageInput) : ProcResult × List Call :=
  match process_audio_exc asst env audio_path lt with
  | .ok v => v
  | .error e => (⟨e, "", "", "", "", none⟩, [])

/-- Body of the `try:` block of `process_text` (lines 168-197 of `app.py`). -/
def processTextRun (asst : Assistant) (env : Env) (text_input : String)
    (lt : LanguageInput) : Except String ProcResult × List Call :=
  if text_input = "" then (.ok ⟨"", "", "\x7b\x7d", "", "", none⟩, [])
  else
    let lang := extractLang lt
    match asst.analyze_text text_input lang with
    | .error e => (.error e, [.analyze text_input lang])
    | .ok notes =>
      match asst.generate_emr_content text_input lang with
      | .error e =>
        (.error e, [.analyze text_input lang, .generateEmr text_input lang])
      | .ok emr =>
        match asst.generate_prescription notes lang with
        | .error e =>
          (.error e,
           [.analyze text_input lang, .generateEmr text_input lang,
            .generatePrescription notes lang])
        | .ok (ptext, pexp) =>
          let out := os_path_join env.tempdir
            ("text_notes_audio_" ++ toString env.time ++ ".mp3")
          let nae := notes ++ "\n\n" ++ pexp
          match asst.text_to_speech_with_gtts nae out lang with
          | .error e =>
            (.error e,
             [.analyze text_input lang, .generateEmr text_input lang,
              .generatePrescription notes lang, .tts nae out lang])
          | .ok _ =>
            (.ok ⟨text_input, notes, emr, ptext, pexp, some out⟩,
             [.analyze text_input lang, .generateEmr text_input lang,
              .generatePrescription notes lang, .tts nae out lang])

/-- `process_text` with its `except Exception` clause made explicit (lines
198-200 of `app.py`): the raw input text stays in the first field and the
exception message lands in the notes and EMR fields. -/
def process_text_exc (asst : Assistant) (env : Env) (text_input : String)
    (lt : LanguageInput) : Except String (ProcResult × List Call) :=
  match processTextRun asst env text_input lt with
  | (.ok r, tr) => .ok (r, tr)
  | (.error e, tr) =>
    .ok (⟨text_input, "Error processing text: " ++ e, json_dumps_error e,
          "", "", none⟩, tr)

/-- Embedding of `process_text` in `app.py`. -/
def process_text (asst : Assistant) (env : Env) (text_input : String)
    (lt : LanguageInput) : ProcResult × List Call :=
  match process_text_exc asst env text_input lt with
  | .ok v => v
  | .error e => (⟨e, "", "", "", "", none⟩, [])

/-- The early-return result of `process_from_any_source` when neither audio
source is available. -/
def noAudioResult : ProcResult :=
  ⟨"No audio available. Please record or upload first.", "",
   json_dumps_error "No audio available", "", "", none⟩

/-- Embedding of `process_from_any_source` in `app.py` (lines 320-325):
prefers the uploaded file, falls back to the recorded one, and short-circuits
when neither is truthy. -/
def process_from_any_source (asst : Assistant) (env : Env)
    (recorded_path uploaded_path : Option String) (lt : LanguageInput) :
    ProcResult × List Call :=
  let path_to_use := if strTruthy uploaded_path then uploaded_path else recorded_path
  if strTruthy path_to_use = false then (noAudioResult, [])
  else process_audio asst env path_to_use lt

/-! ## Concrete fixtures used by witnesses and counterexamples -/

/-- An assistant whose stages all succeed with fixed outputs. -/
def okAsst : Assistant :=
  ⟨fun _ _ => .ok (some "hello transcript"),
   fun _ _ => .ok "the notes",
   fun _ _ => .ok "the emr",
   fun _ _ => .ok ("rx", "why"),
   fun _ _ _ => .ok ()⟩

/-- An assistant whose transcription stage returns an error-indicating string. -/
def errStrAsst : Assistant :=
  { okAsst with transcribe_audio := fun _ _ => .ok (some "Error: boom") }

/-- An assistant whose transcription stage returns Python `None`. -/
def noneAsst : Assistant :=
  { okAsst with transcribe_audio := fun _ _ => .ok none }

/-- An environment in which every path exists with size 1. -/
def envAll : Env := ⟨fun _ => some 1, "/tmp", 100⟩

/-- An environment in which no path exists. -/
def envNone : Env := ⟨fun _ => none, "/tmp", 100⟩

/-- An assistant whose transcription stage returns the empty string. -/
def emptyTransAsst : Assistant :=
  { okAsst with transcribe_audio := fun _ _ => .ok (some "") }

/-! ## Claims -/

/-- Claim C2: for every non-empty audio path that does not exist on disk,
`process_audio` returns an error result whose EMR field encodes a
"file not found" condition, and performs no assistant call at all (in
particular it does not invoke transcription or any later stage). -/
theorem C2_nonexistent_path (asst : Assistant) (env : Env) (p : String)
    (lt : LanguageInput) (hp : p ≠ "") (hx : env.fileSize p = none) :
    process_audio asst env (some p) lt =
      (⟨"Audio file not found at " ++ p, "", json_dumps_error "File not found",
        "", "", none⟩, []) := by
  unfold process_audio process_audio_exc processAudioRun
  simp [hp, Env.pathExists, hx, fileNotFoundResult]

/-- Witness for C2 at a concrete nonexistent path. -/
theorem C2_witness :
    process_audio okAsst envNone (some "/missing.wav") (.pair "en" "English") =
      (⟨"Audio file not found at /missing.wav", "",
        json_dumps_error "File not found", "", "", none⟩, []) :=
  C2_nonexistent_path okAsst envNone "/missing.wav" (.pair "en" "English")
    (by decide) rfl

/-- Claim C3: for the empty string as text input, `process_text` returns the
all-empty result (empty transcript, notes, prescription and explanation, the
empty JSON document in the EMR field, no audio path) and performs no
assistant call. -/
theorem C3_empty_text (asst : Assistant) (env : Env) (lt : LanguageInput) :
    process_text asst env "" lt = (⟨"", "", "\x7b\x7d", "", "", none⟩, []) := rfl

/-- Counterexample to claim C5 as stated: in the idle state left behind by a
completed recording session (`is_recording = false`, a stored path whose
non-empty file still exists), `stop_recording` does not return a
"no recording" status — it re-returns "Recording complete." together with the
previous session's file path. -/
theorem C5_counterexample :
    ((⟨false, some "/tmp/session1.wav", false⟩ : RecordingState).is_recording
       = false) ∧
    (stop_recording ⟨false, some "/tmp/session1.wav", false⟩
        (fun p => if p = "/tmp/session1.wav" then some 2048 else none)).2 =
      ⟨"🎙️ Record", "Recording complete.", some "/tmp/session1.wav"⟩ := by
  constructor
  · rfl
  · decide

/-- Claim C5 (amended): a stop issued while no recording is active is a no-op
on the state, and it returns the "No recording was saved." status with no file
path provided no audio file from a previous session is still reachable (no
stored path, an empty stored path, or a stored path that does not exist on
disk).  When a previous session's non-empty file still exists, `stop_recording`
instead re-reports "Recording complete." with the old path. -/
theorem C5_stop_while_idle (st : RecordingState) (fs : String → Option Nat)
    (hidle : st.is_recording = false)
    (hpath : ∀ p, st.audio_path = some p → p = "" ∨ fs p = none) :
    stop_recording st fs =
      (st, ⟨"🎙️ Record", "No recording was saved.", none⟩) := by
  rcases st with ⟨ir, apath, ta⟩
  simp only at hidle
  subst hidle
  rcases apath with _ | p
  · rfl
  · rcases hpath p rfl with h | h
    · subst h
      rfl
    · unfold stop_recording
      dsimp only
      split_ifs with hp
      · rfl
      · simp [h]

/-- Witness for C5 (amended) in the initial process state. -/
theorem C5_witness :
    stop_recording ⟨false, none, false⟩ (fun _ => none) =
      (⟨false, none, false⟩, ⟨"🎙️ Record", "No recording was saved.", none⟩) :=
  C5_stop_while_idle ⟨false, none, false⟩ (fun _ => none) rfl
    (fun p h => by simp at h)

/-- Claim C7: the processing action prefers the uploaded file when one is
present (truthy), otherwise falls back to the just-recorded file, and when
neither source is present it returns the "No audio available" error result
performing no assistant call. -/
theorem C7_source_resolution (asst : Assistant) (env : Env)
    (recordedPath uploadedPath : Option String) (lt : LanguageInput) :
    (strTruthy uploadedPath = true →
       process_from_any_source asst env recordedPath uploadedPath lt =
         process_audio asst env uploadedPath lt) ∧
    (strTruthy uploadedPath = false → strTruthy recordedPath = true →
       process_from_any_source asst env recordedPath uploadedPath lt =
         process_audio asst env recordedPath lt) ∧
    (strTruthy uploadedPath = false → strTruthy recordedPath = false →
       process_from_any_source asst env recordedPath uploadedPath lt =
         (noAudioResult, [])) := by
  refine ⟨fun hu => ?_, fun hu hr => ?_, fun hu hr => ?_⟩ <;>
    simp [process_from_any_source, hu, *]

/-- Witness for C7 when neither audio source is present. -/
theorem C7_witness :
    process_from_any_source okAsst envNone none none (.pair "en" "English") =
      (noAudioResult, []) :=
  (C7_source_resolution okAsst envNone none none (.pair "en" "English")).2.2
    rfl rfl

/-- Counterexample to claim C1 as stated: when transcription returns the
error-indicating string "Error: boom", the EMR field of the result is not
empty — it carries the JSON document `\x7b"error": "Transcription failed"\x7d`
(in particular it is neither `""` nor the empty JSON document). -/
theorem C1_counterexample :
    (process_audio errStrAsst envAll (some "/a.wav") (.pair "en" "English")).1 =
      ⟨"Error: boom", "", json_dumps_error "Transcription failed",
       "", "", none⟩ ∧
    (process_audio errStrAsst envAll (some "/a.wav")
        (.pair "en" "English")).1.emr ≠ "" ∧
    (process_audio errStrAsst envAll (some "/a.wav")
        (.pair "en" "English")).1.emr ≠ "\x7b\x7d" := by
  refine ⟨?_, ?_, ?_⟩ <;> decide

/-- Claim C1 (amended): for every existing audio path, if transcription
returns an error-indicating string (starting with "Error"), `process_audio`
returns that string as the transcript, the JSON document encoding
"Transcription failed" in the EMR field, empty notes, prescription and
explanation, no audio path, and the only assistant call performed is the
transcription itself — analyze, generate-EMR, generate-prescription and
synthesize-speech are not invoked. -/
theorem C1_transcription_error_string (asst : Assistant) (env : Env)
    (p s : String) (lt : LanguageInput)
    (hp : p ≠ "") (hx : env.pathExists p = true)
    (ht : asst.transcribe_audio p (extractLang lt) = .ok (some s))
    (he : str_startswith s "Error" = true) :
    process_audio asst env (some p) lt =
      (⟨s, "", json_dumps_error "Transcription failed", "", "", none⟩,
       [Call.transcribe p (extractLang lt)]) := by
  have hs : s ≠ "" := by
    intro h
    subst h
    simp [str_startswith, charsInitSeg] at he
  unfold process_audio process_audio_exc processAudioRun
  simp [hp, hx, ht, he, hs]

/-- Witness for C1 (amended) at a concrete error-returning transcription. -/
theorem C1_witness :
    process_audio errStrAsst envAll (some "/w.wav") (.pair "en" "English") =
      (⟨"Error: boom", "", json_dumps_error "Transcription failed",
        "", "", none⟩,
       [Call.transcribe "/w.wav" "en"]) :=
  C1_transcription_error_string errStrAsst envAll "/w.wav" "Error: boom"
    (.pair "en" "English") (by decide) rfl rfl (by decide)

/-- Counterexample to claim C10 as stated: when transcription returns a null
value (`None`), the transcript field is not that value — the f-string
`transcription[:100]` raises `TypeError` first, so the handler returns an
"Error processing audio" transcript and the EMR field carries the exception
message, not "Transcription failed". -/
theorem C10_counterexample :
    (process_audio noneAsst envAll (some "/a.wav")
        (.pair "en" "English")).1.transcript =
      "Error processing audio: \x27NoneType\x27 object is not subscriptable" ∧
    (process_audio noneAsst envAll (some "/a.wav")
        (.pair "en" "English")).1.emr ≠
      json_dumps_error "Transcription failed" := by
  constructor <;> decide

/-- Claim C10 (amended): for every existing audio path, an empty-string
transcription is treated as a failure exactly as the claim says (it is
returned as the transcript, the EMR field encodes "Transcription failed", all
other fields are empty, no later stage runs); a null (`None`) transcription
instead raises `TypeError` in the logging f-string, so the exception handler
returns an "Error processing audio" transcript with the exception message in
the EMR field — in both cases the only assistant call is the transcription. -/
theorem C10_empty_or_null_transcription (asst : Assistant) (env : Env)
    (p : String) (lt : LanguageInput)
    (hp : p ≠ "") (hx : env.pathExists p = true) :
    (asst.transcribe_audio p (extractLang lt) = .ok (some "") →
       process_audio asst env (some p) lt =
         (⟨"", "", json_dumps_error "Transcription failed", "", "", none⟩,
          [Call.transcribe p (extractLang lt)])) ∧
    (asst.transcribe_audio p (extractLang lt) = .ok none →
       process_audio asst env (some p) lt =
         (⟨"Error processing audio: \x27NoneType\x27 object is not subscriptable",
           "", json_dumps_error "\x27NoneType\x27 object is not subscriptable",
           "", "", none⟩,
          [Call.transcribe p (extractLang lt)])) := by
  constructor <;> intro ht <;>
    unfold process_audio process_audio_exc processAudioRun <;>
    simp [hp, hx, ht]

/-- Witness for C10 (amended) at concrete empty and null transcriptions. -/
theorem C10_witness :
    process_audio emptyTransAsst envAll (some "/b.wav") (.pair "en" "English") =
      (⟨"", "", json_dumps_error "Transcription failed", "", "", none⟩,
       [Call.transcribe "/b.wav" "en"]) ∧
    process_audio noneAsst envAll (some "/b.wav") (.pair "en" "English") =
      (⟨"Error processing audio: \x27NoneType\x27 object is not subscriptable",
        "", json_dumps_error "\x27NoneType\x27 object is not subscriptable",
        "", "", none⟩,
       [Call.transcribe "/b.wav" "en"]) :=
  ⟨(C10_empty_or_null_transcription emptyTransAsst envAll "/b.wav"
      (.pair "en" "English") (by decide) rfl).1 rfl,
   (C10_empty_or_null_transcription noneAsst envAll "/b.wav"
      (.pair "en" "English") (by decide) rfl).2 rfl⟩

/-- Every assistant call recorded by the `process_audio` body carries the
language extracted from the language widget value. -/
theorem processAudioRun_trace_lang (asst : Assistant) (env : Env)
    (ap : Option String) (lt : LanguageInput) :
    ∀ c ∈ (processAudioRun asst env ap lt).2, c.lang = extractLang lt := by
  intro c hc
  unfold processAudioRun at hc
  dsimp only at hc
  repeat' (split at hc)
  all_goals simp only [List.mem_cons, List.mem_singleton, List.not_mem_nil,
    or_false] at hc
  all_goals (rcases hc with rfl | rfl | rfl | rfl | rfl <;> simp [Call.lang])

/-- Every assistant call recorded by the `process_text` body carries the
language extracted from the language widget value. -/
theorem processTextRun_trace_lang (asst : Assistant) (env : Env)
    (text : String) (lt : LanguageInput) :
    ∀ c ∈ (processTextRun asst env text lt).2, c.lang = extractLang lt := by
  intro c hc
  unfold processTextRun at hc
  dsimp only at hc
  repeat' (split at hc)
  all_goals simp only [List.mem_cons, List.mem_singleton, List.not_mem_nil,
    or_false] at hc
  all_goals (rcases hc with rfl | rfl | rfl | rfl | rfl <;> simp [Call.lang])

/-- The exception handler of `process_audio` does not change the recorded
call list. -/
theorem process_audio_trace (asst : Assistant) (env : Env) (ap : Option String)
    (lt : LanguageInput) :
    (process_audio asst env ap lt).2 = (processAudioRun asst env ap lt).2 := by
  unfold process_audio process_audio_exc
  rcases h : processAudioRun asst env ap lt with ⟨e | r, tr⟩ <;> simp [h]

/-- The exception handler of `process_text` does not change the recorded
call list. -/
theorem process_text_trace (asst : Assistant) (env : Env) (text : String)
    (lt : LanguageInput) :
    (process_text asst env text lt).2 = (processTextRun asst env text lt).2 := by
  unfold process_text process_text_exc
  rcases h : processTextRun asst env text lt with ⟨e | r, tr⟩ <;> simp [h]

/-- Claim C4: for every input and every behaviour of the external assistant
calls — including any of them raising an exception — the handlers
`process_audio` and `process_text` never raise to their caller: their
`except Exception` clauses turn every escaping exception into an `Except.ok`
carrying a six-field `ProcResult`. -/
theorem C4_handlers_never_raise (asst : Assistant) (env : Env)
    (ap : Option String) (text : String) (lt lt2 : LanguageInput) :
    (∃ v, process_audio_exc asst env ap lt = .ok v) ∧
    (∃ w, process_text_exc asst env text lt2 = .ok w) := by
  constructor
  · unfold process_audio_exc
    rcases h : processAudioRun asst env ap lt with ⟨e | r, tr⟩ <;>
      exact ⟨_, rfl⟩
  · unfold process_text_exc
    rcases h : processTextRun asst env text lt2 with ⟨e | r, tr⟩ <;>
      exact ⟨_, rfl⟩

/-- Claim C9: in both processing modes, every assistant call of a single
invocation receives the same language value, namely the code component of the
selected `(code, displayName)` pair (or the default "en" for a non-tuple
widget value), unchanged across the stages. -/
theorem C9_language_passthrough (asst : Assistant) (env : Env)
    (ap : Option String) (text : String) (lt : LanguageInput) (c : Call) :
    (c ∈ (process_audio asst env ap lt).2 → c.lang = extractLang lt) ∧
    (c ∈ (process_text asst env text lt).2 → c.lang = extractLang lt) := by
  constructor <;> intro hc
  · exact processAudioRun_trace_lang asst env ap lt c
      (process_audio_trace asst env ap lt ▸ hc)
  · exact processTextRun_trace_lang asst env text lt c
      (process_text_trace asst env text lt ▸ hc)

/-- Witness for C9 on a concrete successful audio run. -/
theorem C9_witness :
    (Call.analyze "hello transcript" "en").lang =
      extractLang (.pair "en" "English") :=
  (C9_language_passthrough okAsst envAll (some "/a.wav") "t"
      (.pair "en" "English") (Call.analyze "hello transcript" "en")).1
    (by decide)

/-- When the `process_text` body succeeds, the first field of its result is
the raw input text. -/
theorem processTextRun_ok_transcript (asst : Assistant) (env : Env)
    (text : String) (lt : LanguageInput) (r : ProcResult) (tr : List Call)
    (hr : processTextRun asst env text lt = (.ok r, tr)) (h : text ≠ "") :
    r.transcript = text := by
  unfold processTextRun at hr
  dsimp only at hr
  repeat' (split at hr)
  all_goals
    first
    | (simp only [Prod.mk.injEq, Except.ok.injEq] at hr
       rcases hr with ⟨rfl, rfl⟩
       rfl)
    | simp_all

/-- The `process_text` body never performs a transcription call. -/
theorem processTextRun_no_transcribe (asst : Assistant) (env : Env)
    (text : String) (lt : LanguageInput) :
    ∀ c ∈ (processTextRun asst env text lt).2, c.isTranscribe = false := by
  intro c hc
  unfold processTextRun at hc
  dsimp only at hc
  repeat' (split at hc)
  all_goals simp only [List.mem_cons, List.mem_singleton, List.not_mem_nil,
    or_false] at hc
  all_goals
    (rcases hc with rfl | rfl | rfl | rfl | rfl <;> simp [Call.isTranscribe])

/-- Claim C6: for every non-empty text input, `process_text` returns the raw
input text itself, unchanged, as the first (transcript) field of the result —
in the successful outcome and in every exception outcome alike — and never
invokes the transcription stage. -/
theorem C6_text_passthrough (asst : Assistant) (env : Env) (text : String)
    (lt : LanguageInput) (h : text ≠ "") :
    (process_text asst env text lt).1.transcript = text ∧
    (∀ c ∈ (process_text asst env text lt).2, c.isTranscribe = false) := by
  constructor
  · unfold process_text process_text_exc
    rcases hr : processTextRun asst env text lt with ⟨er | r, tr⟩
    · rfl
    · exact processTextRun_ok_transcript asst env text lt r tr hr h
  · intro c hc
    rw [process_text_trace] at hc
    exact processTextRun_no_transcribe asst env text lt c hc

/-- Witness for C6 at a concrete patient description. -/
theorem C6_witness :
    (process_text okAsst envAll "Patient reports headache for 2 days"
        (.pair "en" "English")).1.transcript =
      "Patient reports headache for 2 days" :=
  (C6_text_passthrough okAsst envAll "Patient reports headache for 2 days"
      (.pair "en" "English") (by decide)).1

/-- A successful body run passes straight through the exception handler. -/
theorem process_audio_eq_of_run_ok (asst : Assistant) (env : Env)
    (ap : Option String) (lt : LanguageInput) (r : ProcResult) (tr : List Call)
    (hr : processAudioRun asst env ap lt = (.ok r, tr)) :
    process_audio asst env ap lt = (r, tr) := by
  unfold process_audio process_audio_exc
  rw [hr]

/-- An exception in the body becomes the handler's error tuple. -/
theorem process_audio_eq_of_run_err (asst : Assistant) (env : Env)
    (ap : Option String) (lt : LanguageInput) (e : String) (tr : List Call)
    (hr : processAudioRun asst env ap lt = (.error e, tr)) :
    process_audio asst env ap lt =
      (⟨"Error processing audio: " ++ e, "", json_dumps_error e, "", "", none⟩,
       tr) := by
  unfold process_audio process_audio_exc
  rw [hr]

/-- A successful body run passes straight through the exception handler. -/
theorem process_text_eq_of_run_ok (asst : Assistant) (env : Env)
    (text : String) (lt : LanguageInput) (r : ProcResult) (tr : List Call)
    (hr : processTextRun asst env text lt = (.ok r, tr)) :
    process_text asst env text lt = (r, tr) := by
  unfold process_text process_text_exc
  rw [hr]

/-- An exception in the body becomes the handler's error tuple, which keeps
the raw input text in the first field. -/
theorem process_text_eq_of_run_err (asst : Assistant) (env : Env)
    (text : String) (lt : LanguageInput) (e : String) (tr : List Call)
    (hr : processTextRun asst env text lt = (.error e, tr)) :
    process_text asst env text lt =
      (⟨text, "Error processing text: " ++ e, json_dumps_error e,
        "", "", none⟩, tr) := by
  unfold process_text process_text_exc
  rw [hr]

/-- In a successful audio run that produced a synthesized-audio path, that
path follows the `medical_notes_audio_{t}.mp3` naming scheme in the temp
directory and the speech-synthesis stage was called on
notes ++ separator ++ explanation with exactly that output path. -/
theorem processAudioRun_ok_audio (asst : Assistant) (env : Env)
    (ap : Option String) (lt : LanguageInput) (r : ProcResult) (tr : List Call)
    (out : String) (hr : processAudioRun asst env ap lt = (.ok r, tr))
    (ha : r.audio = some out) :
    out = os_path_join env.tempdir
      ("medical_notes_audio_" ++ toString env.time ++ ".mp3") ∧
    Call.tts (r.notes ++ "\n\n" ++ r.explanation) out (extractLang lt) ∈ tr := by
  unfold processAudioRun at hr
  dsimp only at hr
  repeat' (split at hr)
  all_goals
    first
    | (simp only [Prod.mk.injEq, Except.ok.injEq] at hr
       rcases hr with ⟨rfl, rfl⟩
       simp_all [pleaseRecordResult, fileNotFoundResult])
    | simp_all [pleaseRecordResult, fileNotFoundResult]

/-- Text-mode analogue of `processAudioRun_ok_audio` with the
`text_notes_audio_` naming scheme. -/
theorem processTextRun_ok_audio (asst : Assistant) (env : Env)
    (text : String) (lt : LanguageInput) (r : ProcResult) (tr : List Call)
    (out : String) (hr : processTextRun asst env text lt = (.ok r, tr))
    (ha : r.audio = some out) :
    out = os_path_join env.tempdir
      ("text_notes_audio_" ++ toString env.time ++ ".mp3") ∧
    Call.tts (r.notes ++ "\n\n" ++ r.explanation) out (extractLang lt) ∈ tr := by
  unfold processTextRun at hr
  dsimp only at hr
  repeat' (split at hr)
  all_goals
    first
    | (simp only [Prod.mk.injEq, Except.ok.injEq] at hr
       rcases hr with ⟨rfl, rfl⟩
       simp_all [pleaseRecordResult, fileNotFoundResult])
    | simp_all [pleaseRecordResult, fileNotFoundResult]

/-- Counterexample to claim C8 as stated: two distinct successful audio runs
performed within the same whole second (equal `int(time.time())` readings)
write their synthesized audio to the same temporary path, so that path is not
unique per run. -/
theorem C8_counterexample :
    (process_audio okAsst envAll (some "/a.wav") (.pair "en" "English")).1.audio
      = some "/tmp/medical_notes_audio_100.mp3" ∧
    (process_audio okAsst envAll (some "/b.wav") (.pair "en" "English")).1.audio
      = some "/tmp/medical_notes_audio_100.mp3" ∧
    ("/a.wav" : String) ≠ "/b.wav" := by
  refine ⟨?_, ?_, ?_⟩ <;> decide

/-- Claim C8 (amended): in every successful pipeline run (audio or text mode)
the speech-synthesis stage is invoked with the concatenation of the medical
notes, the "\n\n" separator, and the prescription explanation, and its output
path is the temp directory joined with `medical_notes_audio_{t}.mp3`
(audio mode) or `text_notes_audio_{t}.mp3` (text mode) where `t` is the
whole-second timestamp of the run — so runs of the same mode within the same
second share the path rather than each getting a fresh unique one. -/
theorem C8_tts_input_and_path (asst : Assistant) (env : Env) (ap : Option String)
    (text : String) (lt : LanguageInput) (r : ProcResult) (tr : List Call)
    (out : String) :
    (process_audio asst env ap lt = (r, tr) → r.audio = some out →
       out = os_path_join env.tempdir
         ("medical_notes_audio_" ++ toString env.time ++ ".mp3") ∧
       Call.tts (r.notes ++ "\n\n" ++ r.explanation) out (extractLang lt) ∈ tr) ∧
    (process_text asst env text lt = (r, tr) → r.audio = some out →
       out = os_path_join env.tempdir
         ("text_notes_audio_" ++ toString env.time ++ ".mp3") ∧
       Call.tts (r.notes ++ "\n\n" ++ r.explanation) out (extractLang lt) ∈ tr) := by
  constructor <;> intro h ha
  · rcases hr : processAudioRun asst env ap lt with ⟨er | rr, tr0⟩
    · rw [process_audio_eq_of_run_err asst env ap lt er tr0 hr] at h
      simp only [Prod.mk.injEq] at h
      rcases h with ⟨rfl, rfl⟩
      simp at ha
    · rw [process_audio_eq_of_run_ok asst env ap lt rr tr0 hr] at h
      simp only [Prod.mk.injEq] at h
      rcases h with ⟨rfl, rfl⟩
      exact processAudioRun_ok_audio asst env ap lt rr tr0 out hr ha
  · rcases hr : processTextRun asst env text lt with ⟨er | rr, tr0⟩
    · rw [process_text_eq_of_run_err asst env text lt er tr0 hr] at h
      simp only [Prod.mk.injEq] at h
      rcases h with ⟨rfl, rfl⟩
      simp at ha
    · rw [process_text_eq_of_run_ok asst env text lt rr tr0 hr] at h
      simp only [Prod.mk.injEq] at h
      rcases h with ⟨rfl, rfl⟩
      exact processTextRun_ok_audio asst env text lt rr tr0 out hr ha

/-- Witness for C8 (amended) on a concrete successful audio run. -/
theorem C8_witness :
    "/tmp/medical_notes_audio_100.mp3" =
      os_path_join envAll.tempdir
        ("medical_notes_audio_" ++ toString envAll.time ++ ".mp3") ∧
    Call.tts ("the notes" ++ "\n\n" ++ "why") "/tmp/medical_notes_audio_100.mp3"
        (extractLang (.pair "en" "English")) ∈
      [Call.transcribe "/a.wav" "en", Call.analyze "hello transcript" "en",
       Call.generateEmr "hello transcript" "en",
       Call.generatePrescription "the notes" "en",
       Call.tts "the notes\n\nwhy" "/tmp/medical_notes_audio_100.mp3" "en"] :=
  (C8_tts_input_and_path okAsst envAll (some "/a.wav") "x"
      (.pair "en" "English")
      ⟨"hello transcript", "the notes", "the emr", "rx", "why",
       some "/tmp/medical_notes_audio_100.mp3"⟩
      [Call.transcribe "/a.wav" "en", Call.analyze "hello transcript" "en",
       Call.generateEmr "hello transcript" "en",
       Call.generatePrescription "the notes" "en",
       Call.tts "the notes\n\nwhy" "/tmp/medical_notes_audio_100.mp3" "en"]
      "/tmp/medical_notes_audio_100.mp3").1 (by decide) rfl
